import Mathlib

/-!
# Verification of `gitblog` (`src/main.py`)

A shallow embedding of the gitblog script: it mirrors a GitHub repository's
issues into a Markdown index (`README.md`) and per-issue backup files.

Modelling conventions:
* Python strings are Lean `String`s; the Python `str` primitives used by the
  script (`replace` with one-character patterns, `split`, `isdigit`, slicing,
  lexicographic comparison) are modelled structurally on `String.data` so that
  everything evaluates inside the kernel.  The Unicode character classes
  behind `isdigit` and `int` are tabulated for a documented repertoire
  (`charModelled`), keeping the two classes distinct: `isdigit` accepts
  digit-typed characters such as `²` on which `int` raises.
* A PyGithub issue object is projected to the fields the script reads.  The
  truthiness of `issue.pull_request` (a reference object or `None`) is a
  `Bool`.  `created_at` is an abstract totally-ordered timestamp (`Nat`);
  `str(created_at)[:10]` becomes `take 10` of its decimal rendering.
* Each `md.write(...)` call is one element of a `List String` trace; a file's
  content is the concatenation of its trace.
* Python's `sorted` (a stable sort) is modelled by `List.insertionSort`
  (also stable) with the comparator induced by the Python sort key.
* API calls are parameters of the embedding (`Env`); a call that can raise is
  an `Except String` value.
-/

namespace GitBlog

/-! ## Python string primitives -/

/-- Lexicographic `≤` on code-point lists: Python string comparison. -/
def charListLe : List Char → List Char → Bool
  | [], _ => true
  | _ :: _, [] => false
  | a :: as, b :: bs =>
    if a.toNat < b.toNat then true
    else if b.toNat < a.toNat then false
    else charListLe as bs

/-- Python `a <= b` on strings. -/
def pyStrLe (a b : String) : Bool := charListLe a.data b.data

/-- Python `s.replace(c, d)` for a one-character pattern `c` and
one-character replacement `d` (charwise substitution). -/
def replaceChar (c d : Char) (l : List Char) : List Char :=
  l.map (fun x => if x = c then d else x)

/-- Python `s.replace(c, "")` for a one-character pattern `c` (deletion). -/
def removeChar (c : Char) (l : List Char) : List Char :=
  l.filter (fun x => x != c)

/-- Python `s.split("_")[0]`: the characters before the first underscore
(the whole string when there is none). -/
def firstSegment (s : String) : String :=
  String.mk (s.data.takeWhile (fun c => c != '_'))

/-- Modelled from the Unicode character data (CPython's `str.isdigit` and
`int` classify characters by Unicode properties that live outside this
repository): the decimal-digit value of a character — `Numeric_Type=Decimal`,
category `Nd`, the class `int` parses — for the ranges tabulated here
(ASCII, Arabic-Indic, Extended Arabic-Indic, Devanagari, Fullwidth).
Untabulated `Nd` ranges behave the same way in CPython and lie outside the
repertoire `charModelled` on which this embedding claims agreement. -/
def charDecimalVal (c : Char) : Option Nat :=
  if 0x30 ≤ c.toNat ∧ c.toNat ≤ 0x39 then some (c.toNat - 0x30)
  else if 0x660 ≤ c.toNat ∧ c.toNat ≤ 0x669 then some (c.toNat - 0x660)
  else if 0x6F0 ≤ c.toNat ∧ c.toNat ≤ 0x6F9 then some (c.toNat - 0x6F0)
  else if 0x966 ≤ c.toNat ∧ c.toNat ≤ 0x96F then some (c.toNat - 0x966)
  else if 0xFF10 ≤ c.toNat ∧ c.toNat ≤ 0xFF19 then some (c.toNat - 0xFF10)
  else none

/-- Modelled from the Unicode character data: characters that CPython's
`str.isdigit` accepts although they are not decimal digits
(`Numeric_Type=Digit` only) — the superscript digits `²`, `³`, `¹`.
`int` raises `ValueError` on them, so `isdigit` passing a string does not
make `int` of it safe. -/
def charDigitNotDecimal (c : Char) : Bool :=
  c.toNat == 0xB2 || c.toNat == 0xB3 || c.toNat == 0xB9

/-- CPython `c.isdigit()` for one character of the modelled repertoire:
decimal digits plus the digit-typed non-decimals. -/
def pyCharIsDigit (c : Char) : Bool :=
  (charDecimalVal c).isSome || charDigitNotDecimal c

/-- Characters on which this embedding's digit classification agrees with
CPython: all of ASCII plus the tabulated non-ASCII digit characters. -/
def charModelled (c : Char) : Bool :=
  c.toNat < 128 || pyCharIsDigit c

/-- Python `s.isdigit()`: nonempty and every character digit-typed. -/
def pyIsDigit (s : String) : Bool :=
  !s.data.isEmpty && s.data.all pyCharIsDigit

/-- Decimal value of a list of decimal digits (used by the model of
`int`). -/
def digitsVal (l : List Char) : Nat :=
  l.foldl (fun n c => n * 10 + (charDecimalVal c).getD 0) 0

/-- Python `int(s)` for nonnegative literals: succeeds exactly on nonempty
strings of decimal digits (`Nd`) and otherwise raises (`none`) — in
particular on digit-typed non-decimals such as `²`.  (CPython also accepts
signs and surrounding whitespace; no caller in this script produces such
strings, and they are irrelevant to the claims.) -/
def pyIntParse (s : String) : Option Nat :=
  if !s.data.isEmpty && s.data.all (fun c => (charDecimalVal c).isSome) then
    some (digitsVal s.data)
  else none

/-- Python `s[:n]`. -/
def pyTake (s : String) (n : Nat) : String := String.mk (s.data.take n)

/-! ## Data model (read-only projections of the API objects) -/

/-- Projection of a PyGithub issue to the fields `main.py` reads. -/
structure Issue where
  number : Nat
  title : String
  body : Option String
  created_at : Nat
  user_login : String
  html_url : String
  pull_request : Bool
  comments : Nat
  deriving DecidableEq, Repr

/-- Projection of a PyGithub label: `name` and optional `description`. -/
structure Label where
  name : String
  description : Option String
  deriving DecidableEq, Repr

/-- Projection of a PyGithub issue comment. -/
structure Comment where
  user_login : String
  body : Option String
  deriving DecidableEq, Repr

/-! ## Module-level constants of `main.py` -/

def BACKUP_DIR : String := "BACKUP"

def ANCHOR_NUMBER : Nat := 5

def IGNORE_LABELS : List String := ["Top", "TODO", "Friends", "About", "Things"]

def MD_HEAD : String :=
  "## GitBlog\n\n我的个人博客，使用 GitHub Issues 和 GitHub Actions 自动生成。\n\n"

/-! ## Small helpers of `main.py` -/

/-- Model of `is_me(issue, me)`: `issue.user.login == me`. -/
def is_me (issue : Issue) (me : String) : Bool := issue.user_login == me

/-- Model of `is_me(c, me)` applied to a comment object. -/
def comment_is_me (c : Comment) (me : String) : Bool := c.user_login == me

/-- Model of `format_time(time)`: `str(time)[:10]`. -/
def format_time (t : Nat) : String := pyTake (toString t) 10

/-- The guard `is_me(issue, me) and not issue.pull_request` used (verbatim)
at every rendering and backup site. -/
def qualifies (me : String) (issue : Issue) : Bool :=
  is_me issue me && !issue.pull_request

/-- Model of `add_issue_info(issue, md)`: the single line written for an issue. -/
def add_issue_info (issue : Issue) : String :=
  "- [" ++ issue.title ++ "](" ++ issue.html_url ++ ") - "
    ++ format_time issue.created_at ++ "\n"

/-! ## Sorting -/

/-- Comparator of `sorted(issues, key=lambda x: x.created_at, reverse=True)`:
newest first. -/
def issueDescRel (a b : Issue) : Prop := b.created_at ≤ a.created_at

instance : DecidableRel issueDescRel :=
  fun a b => inferInstanceAs (Decidable (b.created_at ≤ a.created_at))

instance : IsTotal Issue issueDescRel := ⟨fun a b => le_total b.created_at a.created_at⟩

instance : IsTrans Issue issueDescRel := ⟨fun _ _ _ h1 h2 => le_trans h2 h1⟩

/-- Model of `sorted(issues, key=lambda x: x.created_at, reverse=True)`. -/
def sortIssuesDesc (issues : List Issue) : List Issue :=
  List.insertionSort issueDescRel issues

/-- The Python sort key of a label:
`(x.description is None, x.description == "", x.description, x.name)`.
When the third slot is reached both descriptions are non-`None` or both are
`None`; `getD ""` renders the two `None`s as an equal pair, exactly as
Python's tuple comparison (which only tests them for equality) does. -/
def labelKey (l : Label) : Bool × Bool × String × String :=
  (l.description.isNone, decide (l.description = some ""),
   l.description.getD "", l.name)

/-- Python `<=` on the 4-tuple keys: lexicographic, with `False < True`. -/
def pyTupleLe (a b : Bool × Bool × String × String) : Bool :=
  if a.1 ≠ b.1 then a.1 == false
  else if a.2.1 ≠ b.2.1 then a.2.1 == false
  else if a.2.2.1 ≠ b.2.2.1 then pyStrLe a.2.2.1 b.2.2.1
  else pyStrLe a.2.2.2 b.2.2.2

/-- The label ordering used by `add_md_label` before rendering. -/
def labelRel (a b : Label) : Prop := pyTupleLe (labelKey a) (labelKey b) = true

instance : DecidableRel labelRel :=
  fun a b => inferInstanceAs (Decidable (pyTupleLe (labelKey a) (labelKey b) = true))

/-- Model of `sorted(labels, key=...)` in `add_md_label`. -/
def sortLabels (labels : List Label) : List Label :=
  List.insertionSort labelRel labels

/-! ## `add_md_label` -/

def DETAILS_OPEN : String := "<details><summary>显示更多</summary>\n"

def DETAILS_CLOSE : String := "</details>\n"

/-- The `for issue in issues` loop of `add_md_label`, with the running count
`i` of rendered entries.  Returns the writes and the final count.  (The
source's `if not issue: continue` guard is vacuous here: fetched issue
objects are never falsy, and a `None` entry would already have crashed the
`sorted` key lambda.) -/
def labelLoop (me : String) : List Issue → Nat → List String × Nat
  | [], i => ([], i)
  | issue :: rest, i =>
    if is_me issue me && !issue.pull_request then
      let pre := if i == ANCHOR_NUMBER then [DETAILS_OPEN, "\n"] else []
      let r := labelLoop me rest (i + 1)
      (pre ++ add_issue_info issue :: r.1, r.2)
    else
      labelLoop me rest i

/-- The writes `add_md_label` performs for one (non-ignored) label: sort the
label's issues newest first, write the heading when the fetched list is
nonempty, run the loop, close the details block when more than
`ANCHOR_NUMBER` entries were rendered. -/
def add_md_label_section (me : String) (label : Label) (issues : List Issue) :
    List String :=
  let sorted := sortIssuesDesc issues
  let head := if sorted.length ≠ 0 then ["## " ++ label.name ++ "\n\n"] else []
  let body := labelLoop me sorted 0
  head ++ body.1 ++ (if ANCHOR_NUMBER < body.2 then [DETAILS_CLOSE, "\n"] else [])

/-- One iteration of the label loop of `add_md_label`: ignored labels are
skipped (`continue`), others contribute their section. -/
def label_section_in_run (me : String) (issuesOf : Label → List Issue)
    (label : Label) : List String :=
  if label.name ∈ IGNORE_LABELS then []
  else add_md_label_section me label (issuesOf label)

/-- All writes of `add_md_label`: labels sorted by the Python key, ignored
ones skipped, one section each. -/
def add_md_label (me : String) (labels : List Label)
    (issuesOf : Label → List Issue) : List String :=
  ((sortLabels labels).map (label_section_in_run me issuesOf)).flatten

/-! ## `add_md_issues` -/

/-- The writes and the log lines of `add_md_issues`.  The whole body sits in
one `try`: the heading is written, then the issue list is fetched (an
`Except`, since the API call can raise) and each identity-authored
non-pull-request issue is rendered; any failure is caught, logged, and ends
the section. -/
def add_md_issues (me : String) (fetched : Except String (List Issue)) :
    List String × List String :=
  match fetched with
  | .error e => (["## 所有文章\n\n"], ["Error adding issues: " ++ e])
  | .ok issues =>
    ("## 所有文章\n\n"
        :: (issues.filter (fun i => is_me i me && !i.pull_request)).map add_issue_info,
      [])

/-! ## `get_to_generate_issues` and `save_issue` -/

/-- Model of `generated_issues_numbers`: the numeric first segments of the backup
directory's filenames; the `int` conversion is applied only to names whose
first segment passes `isdigit`.  This total version stands in for the list
comprehension when every guarded conversion succeeds; `getD 0` is reached
only where CPython's `int` would raise, which
`generated_issues_numbers_checked` models precisely. -/
def generated_issues_numbers (files : List String) : List Nat :=
  (files.filter (fun f => pyIsDigit (firstSegment f))).map
    (fun f => (pyIntParse (firstSegment f)).getD 0)

/-- Failure-aware model of the same comprehension: `isdigit` does not make
`int` total (a prefix such as `²` passes the guard and `int` raises
`ValueError`), so the comprehension itself can raise; it evaluates left to
right and the first failing conversion aborts it. -/
def generated_issues_numbers_checked : List String → Except String (List Nat)
  | [] => Except.ok []
  | f :: fs =>
    if pyIsDigit (firstSegment f) then
      match pyIntParse (firstSegment f) with
      | some n => (generated_issues_numbers_checked fs).map (fun l => n :: l)
      | none => Except.error ("invalid literal for int(): " ++ firstSegment f)
    else generated_issues_numbers_checked fs

/-- Model of `get_to_generate_issues`: all fetched issues whose number is not already
a backup filename's numeric first segment; when `--issue_number` is a truthy
(nonempty) string, the issue fetched by that number is appended, a failing
`int` conversion or fetch being caught and logged.  Returns the work list
and the log lines. -/
def get_to_generate_issues (allIssues : List Issue) (files : List String)
    (getIssue : Nat → Except String Issue) (issue_number : Option String) :
    List Issue × List String :=
  let gens := generated_issues_numbers files
  let base := allIssues.filter (fun i => !(decide (i.number ∈ gens)))
  match issue_number with
  | none => (base, [])
  | some s =>
    if s = "" then (base, [])
    else
      match pyIntParse s with
      | none => (base, ["Error getting issue " ++ s ++ ": invalid literal"])
      | some n =>
        match getIssue n with
        | .ok iss => (base ++ [iss], [])
        | .error e => (base, ["Error getting issue " ++ s ++ ": " ++ e])

/-- Model of `safe_title` in `save_issue`: the chain
`.replace('/', '-').replace(' ', '.').replace('?', '').replace(':', '')
.replace('*', '').replace('"', '').replace('<', '').replace('>', '')
.replace('|', '')`, innermost applied first. -/
def safe_title (title : String) : String :=
  String.mk
    (removeChar '|'
      (removeChar '>'
        (removeChar '<'
          (removeChar '"'
            (removeChar '*'
              (removeChar ':'
                (removeChar '?'
                  (replaceChar ' ' '.'
                    (replaceChar '/' '-' title.data)))))))))

/-- Model of `md_name` in `save_issue`: `os.path.join(dir_name, f"...")` with the
POSIX separator. -/
def backup_md_name (dir_name : String) (issue : Issue) : String :=
  dir_name ++ "/" ++ toString issue.number ++ "_" ++ safe_title issue.title ++ ".md"

/-- The content `save_issue` writes: header line, creation date, body, then
one `---`-separated block per identity-authored comment (comments are only
fetched when the issue's comment count is nonzero). -/
def save_issue_content (issue : Issue) (me : String) (comments : List Comment) :
    String :=
  "# [" ++ issue.title ++ "](" ++ issue.html_url ++ ")\n\n"
    ++ "创建时间: " ++ format_time issue.created_at ++ "\n\n"
    ++ (issue.body.getD "")
    ++ (if issue.comments ≠ 0 then
          ((comments.filter (fun c => comment_is_me c me)).map
              (fun c => "\n\n---\n\n" ++ c.body.getD "")).foldl (· ++ ·) ""
        else "")

/-! ## `main` -/

/-- The API responses one run observes (the external collaborator). -/
structure Env where
  me : String
  labels : List Label
  issuesOf : Label → List Issue
  allIssuesSorted : Except String (List Issue)
  allIssues : List Issue
  backupFiles : List String
  getIssue : Nat → Except String Issue

/-- Observable outcome of a run of `main` (after successful setup):
the `README.md` write trace, the log lines printed, the backup filenames
written, and the count in the final summary line. -/
structure RunResult where
  readme : List String
  logs : List String
  written : List String
  summaryCount : Nat
  deriving Repr

/-- Model of `main`: write the header, the label sections and the all-issues section
to `README.md`, compute the backup work list, write a backup file for every
work-list issue that is identity-authored and not a pull request, and print
`Generated README.md and {len(to_generate_issues)} backup files`. -/
def main_run (env : Env) (issue_number : Option String) (dir_name : String) :
    RunResult :=
  let header := [MD_HEAD, "\n"]
  let labelSec := add_md_label env.me env.labels env.issuesOf
  let issuesSec := add_md_issues env.me env.allIssuesSorted
  let tg := get_to_generate_issues env.allIssues env.backupFiles env.getIssue issue_number
  let written :=
    (tg.1.filter (fun i => is_me i env.me && !i.pull_request)).map
      (backup_md_name dir_name)
  { readme := header ++ labelSec ++ issuesSec.1
    logs := issuesSec.2 ++ tg.2
    written := written
    summaryCount := tg.1.length }

/-! ## Closed form of the label loop (proof helper) -/

/-- Closed form of `labelLoop` on an already-filtered list of qualifying
issues: each entry line, with the details opener inserted just before the
entry rendered at count `ANCHOR_NUMBER`. -/
def anchoredEntries : List Issue → Nat → List String
  | [], _ => []
  | issue :: rest, i =>
    (if i == ANCHOR_NUMBER then [DETAILS_OPEN, "\n"] else [])
      ++ add_issue_info issue :: anchoredEntries rest (i + 1)

/-! ## Concrete fixtures (used by counterexamples and witnesses) -/

/-- An identity-authored genuine issue. -/
def myIssue : Issue :=
  { number := 1, title := "hello", body := some "b", created_at := 20230101
    user_login := "u", html_url := "http://x/1", pull_request := false
    comments := 0 }

/-- A pull request authored by someone else. -/
def prIssue : Issue :=
  { number := 2, title := "p", body := none, created_at := 20230601
    user_login := "other", html_url := "http://x/2", pull_request := true
    comments := 0 }

/-- A label with no description. -/
def laNone : Label := { name := "a", description := none }

/-- A label with an empty-string description. -/
def lbEmpty : Label := { name := "z", description := some "" }

/-- A non-ignored label. -/
def goLabel : Label := { name := "Go", description := none }

/-- An issue whose title exercises every sanitized character. -/
def sanitizeIssue : Issue :=
  { number := 7, title := "A/B: Test \"X\"", body := none, created_at := 20230101
    user_login := "u", html_url := "http://x/7", pull_request := false
    comments := 0 }

/-- An identity-authored issue whose number already has a backup file. -/
def issue12 : Issue :=
  { number := 12, title := "t12", body := none, created_at := 20230301
    user_login := "u", html_url := "http://x/12", pull_request := false
    comments := 0 }

/-- Environment where issue 12 is already backed up and is explicitly
requested again. -/
def envC6 : Env :=
  { me := "u", labels := [], issuesOf := fun _ => []
    allIssuesSorted := Except.ok [], allIssues := [issue12]
    backupFiles := ["12_ab.md"]
    getIssue := fun k => if k = 12 then Except.ok issue12 else Except.error "nf" }

/-- Environment whose all-issues fetch fails. -/
def envC8 : Env :=
  { me := "u", labels := [], issuesOf := fun _ => []
    allIssuesSorted := Except.error "boom", allIssues := [myIssue]
    backupFiles := []
    getIssue := fun _ => Except.error "nf" }

/-- Environment whose only fetched issue is a pull request by another
author: it lands on the work list but no backup file is written. -/
def envC10 : Env :=
  { me := "u", labels := [], issuesOf := fun _ => []
    allIssuesSorted := Except.ok [], allIssues := [prIssue]
    backupFiles := []
    getIssue := fun _ => Except.error "nf" }

/-! ## Helper lemmas: distinguishing the written strings -/

theorem data_head_append (s t : String) (c : Char) (h : s.data.head? = some c) :
    (s ++ t).data.head? = some c := by
  rw [String.data_append]
  cases hd : s.data with
  | nil => rw [hd] at h; simp at h
  | cons a l => rw [hd] at h; simp at h; subst h; simp

theorem ne_of_head {s t : String} {c d : Char} (hs : s.data.head? = some c)
    (ht : t.data.head? = some d) (hcd : c ≠ d) : s ≠ t := by
  intro h
  subst h
  rw [hs] at ht
  exact hcd (Option.some.inj ht)

theorem add_issue_info_head (x : Issue) :
    (add_issue_info x).data.head? = some '-' := by
  unfold add_issue_info
  repeat apply data_head_append
  decide

theorem label_heading_head (s : String) :
    ("## " ++ s ++ "\n\n").data.head? = some '#' := by
  repeat apply data_head_append
  decide

theorem details_open_head : DETAILS_OPEN.data.head? = some '<' := by decide

theorem details_close_head : DETAILS_CLOSE.data.head? = some '<' := by decide

theorem nl_head : ("\n").data.head? = some '\n' := by decide

theorem all_heading_head : ("## 所有文章\n\n").data.head? = some '#' := by decide

theorem entry_ne_open (x : Issue) : add_issue_info x ≠ DETAILS_OPEN :=
  ne_of_head (add_issue_info_head x) details_open_head (by decide)

theorem entry_ne_nl (x : Issue) : add_issue_info x ≠ "\n" :=
  ne_of_head (add_issue_info_head x) nl_head (by decide)

theorem entry_ne_close (x : Issue) : add_issue_info x ≠ DETAILS_CLOSE :=
  ne_of_head (add_issue_info_head x) details_close_head (by decide)

theorem entry_ne_heading (x : Issue) (s : String) :
    add_issue_info x ≠ "## " ++ s ++ "\n\n" :=
  ne_of_head (add_issue_info_head x) (label_heading_head s) (by decide)

theorem entry_ne_all_heading (x : Issue) : add_issue_info x ≠ "## 所有文章\n\n" :=
  ne_of_head (add_issue_info_head x) all_heading_head (by decide)

/-! ## Helper lemmas: the label loop -/

theorem labelLoop_eq (me : String) (l : List Issue) (i : Nat) :
    labelLoop me l i =
      (anchoredEntries (l.filter (fun x => is_me x me && !x.pull_request)) i,
        i + (l.filter (fun x => is_me x me && !x.pull_request)).length) := by
  induction l generalizing i with
  | nil => simp [labelLoop, anchoredEntries]
  | cons x rest ih =>
    cases hq : (is_me x me && !x.pull_request) with
    | false => simp [labelLoop, hq, List.filter_cons, ih]
    | true =>
      simp [labelLoop, hq, List.filter_cons, anchoredEntries, ih]
      omega

theorem anchoredEntries_of_gt (q : List Issue) (i : Nat) (h : ANCHOR_NUMBER < i) :
    anchoredEntries q i = q.map add_issue_info := by
  induction q generalizing i with
  | nil => simp [anchoredEntries]
  | cons x rest ih =>
    have h5 : (i == ANCHOR_NUMBER) = false := by
      simp only [beq_eq_false_iff_ne, ne_eq]
      omega
    simp [anchoredEntries, h5, ih (i + 1) (by omega)]

theorem anchoredEntries_at_anchor (q : List Issue) (h : q ≠ []) :
    anchoredEntries q ANCHOR_NUMBER =
      DETAILS_OPEN :: "\n" :: q.map add_issue_info := by
  cases q with
  | nil => exact absurd rfl h
  | cons x rest =>
    simp [anchoredEntries, anchoredEntries_of_gt rest (ANCHOR_NUMBER + 1) (by omega)]

theorem anchoredEntries_split (q : List Issue) (i : Nat) (h : i ≤ ANCHOR_NUMBER) :
    anchoredEntries q i =
      (q.take (ANCHOR_NUMBER - i)).map add_issue_info
        ++ anchoredEntries (q.drop (ANCHOR_NUMBER - i)) ANCHOR_NUMBER := by
  induction q generalizing i with
  | nil => simp [anchoredEntries]
  | cons x rest ih =>
    rcases Nat.eq_or_lt_of_le h with heq | hlt
    · subst heq
      simp [Nat.sub_self]
    · have h5 : (i == ANCHOR_NUMBER) = false := by
        simp only [beq_eq_false_iff_ne, ne_eq]
        omega
      have hsub : ANCHOR_NUMBER - i = (ANCHOR_NUMBER - (i + 1)) + 1 := by omega
      simp only [anchoredEntries, h5, Bool.false_eq_true, if_false, List.nil_append,
        hsub, List.take_succ_cons, List.drop_succ_cons, List.map_cons, List.cons_append]
      rw [ih (i + 1) (by omega)]

theorem anchoredEntries_zero (q : List Issue) :
    anchoredEntries q 0 =
      (q.take ANCHOR_NUMBER).map add_issue_info
        ++ (if ANCHOR_NUMBER < q.length then
              DETAILS_OPEN :: "\n" :: (q.drop ANCHOR_NUMBER).map add_issue_info
            else []) := by
  rw [anchoredEntries_split q 0 (by omega)]
  by_cases hlen : ANCHOR_NUMBER < q.length
  · rw [if_pos hlen, anchoredEntries_at_anchor _ (by simp; omega)]
    simp
  · rw [if_neg hlen]
    have : q.drop (ANCHOR_NUMBER - 0) = [] := by
      simp only [Nat.sub_zero]
      rw [List.drop_eq_nil_iff]
      omega
    rw [this]
    simp [anchoredEntries]

theorem mem_anchoredEntries (x : Issue) (q : List Issue) (i : Nat) :
    add_issue_info x ∈ anchoredEntries q i ↔
      ∃ y ∈ q, add_issue_info y = add_issue_info x := by
  induction q generalizing i with
  | nil => simp [anchoredEntries]
  | cons y rest ih =>
    simp only [anchoredEntries, List.mem_append, List.mem_cons]
    constructor
    · rintro (hpre | h | h)
      · exfalso
        by_cases h5 : (i == ANCHOR_NUMBER) = true <;> simp [h5] at hpre
        rcases hpre with h | h
        · exact entry_ne_open x h
        · exact entry_ne_nl x h
      · exact ⟨y, Or.inl rfl, h.symm⟩
      · obtain ⟨z, hz, he⟩ := (ih (i + 1)).mp h
        exact ⟨z, Or.inr hz, he⟩
    · rintro ⟨z, hz | hz, he⟩
      · subst hz
        exact Or.inr (Or.inl he.symm)
      · exact Or.inr (Or.inr ((ih (i + 1)).mpr ⟨z, hz, he⟩))

/-! ## Helper lemmas: the rendered label section -/

theorem add_md_label_section_eq (me : String) (label : Label) (issues : List Issue) :
    add_md_label_section me label issues =
      (if issues = [] then [] else ["## " ++ label.name ++ "\n\n"])
        ++ (((sortIssuesDesc issues).filter
              (fun x => is_me x me && !x.pull_request)).take ANCHOR_NUMBER).map
            add_issue_info
        ++ (if ANCHOR_NUMBER <
              ((sortIssuesDesc issues).filter
                (fun x => is_me x me && !x.pull_request)).length then
              DETAILS_OPEN :: "\n"
                :: (((sortIssuesDesc issues).filter
                      (fun x => is_me x me && !x.pull_request)).drop
                      ANCHOR_NUMBER).map add_issue_info
            else [])
        ++ (if ANCHOR_NUMBER <
              ((sortIssuesDesc issues).filter
                (fun x => is_me x me && !x.pull_request)).length then
              [DETAILS_CLOSE, "\n"]
            else []) := by
  have hlen : (sortIssuesDesc issues).length = issues.length :=
    (List.perm_insertionSort _ _).length_eq
  by_cases hi : issues = []
  · subst hi
    simp [add_md_label_section, sortIssuesDesc, List.insertionSort, labelLoop,
      anchoredEntries]
  · have hne : ¬((sortIssuesDesc issues).length = 0) := by
      rw [hlen]
      simpa [List.length_eq_zero] using hi
    simp only [add_md_label_section, labelLoop_eq, anchoredEntries_zero, ne_eq, hne,
      not_false_eq_true, if_true, if_neg hi, Nat.zero_add, List.append_assoc]

theorem mem_add_md_label_section (me : String) (label : Label) (issues : List Issue)
    (x : Issue) :
    add_issue_info x ∈ add_md_label_section me label issues ↔
      ∃ y ∈ issues, (is_me y me && !y.pull_request) = true
        ∧ add_issue_info y = add_issue_info x := by
  simp only [add_md_label_section, labelLoop_eq, List.mem_append]
  constructor
  · rintro ((h | h) | h)
    · exfalso
      split at h
      · simp at h
        exact entry_ne_heading x label.name h
      · simp at h
    · rw [mem_anchoredEntries] at h
      obtain ⟨y, hy, he⟩ := h
      rw [List.mem_filter] at hy
      exact ⟨y, (List.perm_insertionSort _ _).mem_iff.mp hy.1, hy.2, he⟩
    · exfalso
      split at h
      · simp at h
        rcases h with h | h
        · exact entry_ne_close x h
        · exact entry_ne_nl x h
      · simp at h
  · rintro ⟨y, hy, hq, he⟩
    refine Or.inl (Or.inr ?_)
    rw [mem_anchoredEntries]
    exact ⟨y, List.mem_filter.mpr ⟨(List.perm_insertionSort _ _).mem_iff.mpr hy, hq⟩, he⟩

/-! ## Helper lemma: the all-issues section -/

theorem mem_add_md_issues (me : String) (issues : List Issue) (x : Issue) :
    add_issue_info x ∈ (add_md_issues me (Except.ok issues)).1 ↔
      ∃ y ∈ issues, (is_me y me && !y.pull_request) = true
        ∧ add_issue_info y = add_issue_info x := by
  simp only [add_md_issues, List.mem_cons, List.mem_map, List.mem_filter]
  constructor
  · rintro (h | h)
    · exact absurd h (entry_ne_all_heading x)
    · obtain ⟨y, ⟨hy, hq⟩, he⟩ := h
      exact ⟨y, hy, hq, he⟩
  · rintro ⟨y, hy, hq, he⟩
    exact Or.inr ⟨y, ⟨hy, hq⟩, he⟩

/-! ## Helper lemmas: the Python string / tuple order -/

theorem charListLe_refl (l : List Char) : charListLe l l = true := by
  induction l with
  | nil => rfl
  | cons a as ih => simp [charListLe, ih]

theorem charListLe_total (a b : List Char) :
    charListLe a b = true ∨ charListLe b a = true := by
  induction a generalizing b with
  | nil => exact Or.inl rfl
  | cons x xs ih =>
    cases b with
    | nil => exact Or.inr rfl
    | cons y ys =>
      simp only [charListLe]
      rcases Nat.lt_trichotomy x.toNat y.toNat with h | h | h
      · left
        rw [if_pos h]
      · rw [if_neg (by omega), if_neg (by omega), if_neg (by omega), if_neg (by omega)]
        exact ih ys
      · right
        rw [if_pos h]

theorem charListLe_trans (a b c : List Char) (h1 : charListLe a b = true)
    (h2 : charListLe b c = true) : charListLe a c = true := by
  induction a generalizing b c with
  | nil => rfl
  | cons x xs ih =>
    cases b with
    | nil => simp [charListLe] at h1
    | cons y ys =>
      cases c with
      | nil => simp [charListLe] at h2
      | cons z zs =>
        simp only [charListLe] at h1 h2 ⊢
        by_cases hxy : x.toNat < y.toNat
        · by_cases hyz : y.toNat < z.toNat
          · rw [if_pos (by omega)]
          · by_cases hzy : z.toNat < y.toNat
            · rw [if_neg hyz, if_pos hzy] at h2
              exact absurd h2 (by simp)
            · rw [if_pos (by omega)]
        · by_cases hyx : y.toNat < x.toNat
          · rw [if_neg hxy, if_pos hyx] at h1
            exact absurd h1 (by simp)
          · rw [if_neg hxy, if_neg hyx] at h1
            by_cases hyz : y.toNat < z.toNat
            · rw [if_pos (by omega)]
            · by_cases hzy : z.toNat < y.toNat
              · rw [if_neg hyz, if_pos hzy] at h2
                exact absurd h2 (by simp)
              · rw [if_neg hyz, if_neg hzy] at h2
                rw [if_neg (by omega), if_neg (by omega)]
                exact ih ys zs h1 h2

theorem char_toNat_inj {x y : Char} (h : x.toNat = y.toNat) : x = y := by
  have hx := Char.ofNat_toNat x
  rw [h] at hx
  rw [← hx, Char.ofNat_toNat]

theorem charListLe_antisymm (a b : List Char) (h1 : charListLe a b = true)
    (h2 : charListLe b a = true) : a = b := by
  induction a generalizing b with
  | nil =>
    cases b with
    | nil => rfl
    | cons y ys => simp [charListLe] at h2
  | cons x xs ih =>
    cases b with
    | nil => simp [charListLe] at h1
    | cons y ys =>
      simp only [charListLe] at h1 h2
      by_cases hxy : x.toNat < y.toNat
      · rw [if_neg (by omega), if_pos hxy] at h2
        exact absurd h2 (by simp)
      · by_cases hyx : y.toNat < x.toNat
        · rw [if_neg hxy, if_pos hyx] at h1
          exact absurd h1 (by simp)
        · rw [if_neg hxy, if_neg hyx] at h1
          rw [if_neg hyx, if_neg hxy] at h2
          rw [char_toNat_inj (show x.toNat = y.toNat by omega), ih ys h1 h2]

theorem pyStrLe_refl (a : String) : pyStrLe a a = true := charListLe_refl _

theorem pyStrLe_total (a b : String) : pyStrLe a b = true ∨ pyStrLe b a = true :=
  charListLe_total _ _

theorem pyStrLe_trans {a b c : String} (h1 : pyStrLe a b = true)
    (h2 : pyStrLe b c = true) : pyStrLe a c = true :=
  charListLe_trans _ _ _ h1 h2

theorem pyStrLe_antisymm {a b : String} (h1 : pyStrLe a b = true)
    (h2 : pyStrLe b a = true) : a = b :=
  String.ext (charListLe_antisymm _ _ h1 h2)

theorem pyTupleLe_total (a b : Bool × Bool × String × String) :
    pyTupleLe a b = true ∨ pyTupleLe b a = true := by
  unfold pyTupleLe
  by_cases h1 : a.1 = b.1
  · rw [if_neg (not_not_intro h1), if_neg (not_not_intro h1.symm)]
    by_cases h2 : a.2.1 = b.2.1
    · rw [if_neg (not_not_intro h2), if_neg (not_not_intro h2.symm)]
      by_cases h3 : a.2.2.1 = b.2.2.1
      · rw [if_neg (not_not_intro h3), if_neg (not_not_intro h3.symm)]
        exact pyStrLe_total _ _
      · rw [if_pos h3, if_pos (Ne.symm h3)]
        exact pyStrLe_total _ _
    · rw [if_pos h2, if_pos (Ne.symm h2)]
      cases ha : a.2.1 <;> cases hb : b.2.1 <;> simp_all
  · rw [if_pos h1, if_pos (Ne.symm h1)]
    cases ha : a.1 <;> cases hb : b.1 <;> simp_all

theorem pyTupleLe_trans {a b c : Bool × Bool × String × String}
    (h1 : pyTupleLe a b = true) (h2 : pyTupleLe b c = true) :
    pyTupleLe a c = true := by
  unfold pyTupleLe at h1 h2 ⊢
  by_cases e1 : a.1 = b.1
  · rw [if_neg (not_not_intro e1)] at h1
    by_cases e1' : b.1 = c.1
    · rw [if_neg (not_not_intro e1')] at h2
      rw [if_neg (not_not_intro (e1.trans e1'))]
      by_cases e2 : a.2.1 = b.2.1
      · rw [if_neg (not_not_intro e2)] at h1
        by_cases e2' : b.2.1 = c.2.1
        · rw [if_neg (not_not_intro e2')] at h2
          rw [if_neg (not_not_intro (e2.trans e2'))]
          by_cases e3 : a.2.2.1 = b.2.2.1
          · rw [if_neg (not_not_intro e3)] at h1
            by_cases e3' : b.2.2.1 = c.2.2.1
            · rw [if_neg (not_not_intro e3')] at h2
              rw [if_neg (not_not_intro (e3.trans e3'))]
              exact pyStrLe_trans h1 h2
            · rw [if_pos e3'] at h2
              rw [if_pos (show a.2.2.1 ≠ c.2.2.1 by rw [e3]; exact e3'), e3]
              exact h2
          · rw [if_pos e3] at h1
            by_cases e3' : b.2.2.1 = c.2.2.1
            · rw [if_pos (show a.2.2.1 ≠ c.2.2.1 by rw [← e3']; exact e3), ← e3']
              exact h1
            · rw [if_pos e3'] at h2
              by_cases e3'' : a.2.2.1 = c.2.2.1
              · exact absurd (pyStrLe_antisymm h1 (by rw [e3'']; exact h2)) e3
              · rw [if_pos e3'']
                exact pyStrLe_trans h1 h2
        · rw [if_pos e2'] at h2
          rw [if_pos (show a.2.1 ≠ c.2.1 by rw [e2]; exact e2'), e2]
          exact h2
      · rw [if_pos e2] at h1
        by_cases e2' : b.2.1 = c.2.1
        · rw [if_pos (show a.2.1 ≠ c.2.1 by rw [← e2']; exact e2)]
          exact h1
        · rw [if_pos e2'] at h2
          cases ha : a.2.1 <;> cases hb : b.2.1 <;> cases hc : c.2.1 <;> simp_all
    · rw [if_pos e1'] at h2
      rw [if_pos (show a.1 ≠ c.1 by rw [e1]; exact e1'), e1]
      exact h2
  · rw [if_pos e1] at h1
    by_cases e1' : b.1 = c.1
    · rw [if_pos (show a.1 ≠ c.1 by rw [← e1']; exact e1)]
      exact h1
    · rw [if_pos e1'] at h2
      cases ha : a.1 <;> cases hb : b.1 <;> cases hc : c.1 <;> simp_all

instance : IsTotal Label labelRel := ⟨fun a b => pyTupleLe_total (labelKey a) (labelKey b)⟩

instance : IsTrans Label labelRel := ⟨fun _ _ _ h1 h2 => pyTupleLe_trans h1 h2⟩

/-! ## Helper lemmas: the backup directory scan -/

theorem generated_issues_numbers_checked_eq (files : List String)
    (h : ∀ f ∈ files, pyIsDigit (firstSegment f) = true →
      (pyIntParse (firstSegment f)).isSome = true) :
    generated_issues_numbers_checked files
      = Except.ok (generated_issues_numbers files) := by
  induction files with
  | nil => rfl
  | cons f fs ih =>
    have ih' := ih (fun g hg => h g (List.mem_cons_of_mem f hg))
    cases hd : pyIsDigit (firstSegment f) with
    | false =>
      have hg : generated_issues_numbers (f :: fs) = generated_issues_numbers fs := by
        simp [generated_issues_numbers, List.filter_cons, hd]
      simp only [generated_issues_numbers_checked, hd, Bool.false_eq_true, if_false]
      rw [hg]
      exact ih'
    | true =>
      have hs := h f (List.mem_cons_self f fs) hd
      rw [Option.isSome_iff_exists] at hs
      obtain ⟨n, hn⟩ := hs
      have hg : generated_issues_numbers (f :: fs)
          = n :: generated_issues_numbers fs := by
        simp [generated_issues_numbers, List.filter_cons, hd, hn]
      simp only [generated_issues_numbers_checked, hd, if_true, hn]
      rw [hg, ih']
      rfl

theorem digit_guard_not_parse_safe :
    pyIsDigit "²" = true ∧ pyIntParse "²" = none
    ∧ generated_issues_numbers_checked ["²_x.md"]
        = Except.error "invalid literal for int(): ²"
    ∧ pyIsDigit "٣" = true ∧ pyIntParse "٣" = some 3
    ∧ generated_issues_numbers_checked ["٣_x.md"] = Except.ok [3]
    ∧ generated_issues_numbers ["٣_x.md"] = [3] :=
  ⟨by decide, by decide, rfl, by decide, by decide, rfl, by decide⟩

/-! ## Claim theorems -/

/-- Claim C1: An issue fetched during a run is rendered (its `add_issue_info`
line appears) in a label section, resp. in the all-issues list, if and only
if its author's login equals the authenticated identity's login (exact
match) and it has no pull-request reference.  Rendered lines identify their
issues because the fetched lists produce pairwise distinct entry lines. -/
theorem c1_rendered_iff_classifier (me : String) (label : Label)
    (labelIssues allIssues : List Issue) (x y : Issue)
    (hx : x ∈ labelIssues) (hxn : (labelIssues.map add_issue_info).Nodup)
    (hy : y ∈ allIssues) (hyn : (allIssues.map add_issue_info).Nodup) :
    (add_issue_info x ∈ add_md_label_section me label labelIssues ↔
      (is_me x me = true ∧ x.pull_request = false))
    ∧ (add_issue_info y ∈ (add_md_issues me (Except.ok allIssues)).1 ↔
      (is_me y me = true ∧ y.pull_request = false)) := by
  constructor
  · rw [mem_add_md_label_section]
    constructor
    · rintro ⟨z, hz, hq, he⟩
      have hzx : z = x := List.inj_on_of_nodup_map hxn hz hx he
      subst hzx
      simpa [Bool.and_eq_true, Bool.not_eq_true'] using hq
    · rintro ⟨h1, h2⟩
      exact ⟨x, hx, by simp [h1, h2], rfl⟩
  · rw [mem_add_md_issues]
    constructor
    · rintro ⟨z, hz, hq, he⟩
      have hzy : z = y := List.inj_on_of_nodup_map hyn hz hy he
      subst hzy
      simpa [Bool.and_eq_true, Bool.not_eq_true'] using hq
    · rintro ⟨h1, h2⟩
      exact ⟨y, hy, by simp [h1, h2], rfl⟩

/-- Witness for C1 at a concrete qualifying issue. -/
theorem c1_witness :
    (add_issue_info myIssue ∈ add_md_label_section "u" goLabel [myIssue] ↔
      (is_me myIssue "u" = true ∧ myIssue.pull_request = false))
    ∧ (add_issue_info myIssue ∈ (add_md_issues "u" (Except.ok [myIssue])).1 ↔
      (is_me myIssue "u" = true ∧ myIssue.pull_request = false)) :=
  c1_rendered_iff_classifier "u" goLabel [myIssue] [myIssue] myIssue myIssue
    (by decide) (by decide) (by decide) (by decide)

/-- Counterexample to claim C2: the label `Go` is not ignored and its only issue is a pull
request by another author, so no issue passes the classifier — yet
`add_md_label` writes the section heading, because the code tests
`len(issues) != 0` on the fetched list, not on the qualifying ones. -/
theorem c2_counterexample :
    label_section_in_run "me" (fun _ => [prIssue]) goLabel = ["## Go\n\n"]
    ∧ [prIssue].filter (fun i => is_me i "me" && !i.pull_request) = []
    ∧ goLabel.name ∉ IGNORE_LABELS := by decide

/-- Amended claim C2: For every label not on the ignore list, the section
heading `## <label name>` is written iff the list of issues fetched for that
label is nonempty — regardless of whether any of them passes the classifier.
A label with zero fetched issues produces no heading at all. -/
theorem c2_amended_heading_iff_nonempty (me : String)
    (issuesOf : Label → List Issue) (label : Label)
    (h : label.name ∉ IGNORE_LABELS) :
    ("## " ++ label.name ++ "\n\n") ∈ label_section_in_run me issuesOf label ↔
      issuesOf label ≠ [] := by
  by_cases hi : issuesOf label = []
  · rw [label_section_in_run, if_neg h, hi]
    simp [add_md_label_section, sortIssuesDesc, List.insertionSort, labelLoop,
      anchoredEntries]
  · rw [label_section_in_run, if_neg h, add_md_label_section_eq, if_neg hi]
    simp [hi]

/-- Witness for C2 (amended) at a concrete non-ignored label. -/
theorem c2_amended_witness :
    ("## " ++ goLabel.name ++ "\n\n")
      ∈ label_section_in_run "u" (fun _ => [myIssue]) goLabel :=
  (c2_amended_heading_iff_nonempty "u" (fun _ => [myIssue]) goLabel
    (by decide)).mpr (by decide)

/-- Claim C4: Within a rendered label section the qualifying issues appear
newest-created-first (the section renders the qualifying filter of the
descending-sorted list, in order); exactly `ANCHOR_NUMBER` qualifying
entries precede the collapsible opener, which — when present — is emitted
immediately before the `(ANCHOR_NUMBER+1)`-th qualifying entry; the closing
marker is emitted iff strictly more than `ANCHOR_NUMBER` qualifying entries
were rendered; and skipped issues (pull requests, other authors) are
filtered out before any counting. -/
theorem c4_anchor_structure (me : String) (label : Label) (issues : List Issue) :
    (sortIssuesDesc issues).Sorted issueDescRel
    ∧ (sortIssuesDesc issues).Perm issues
    ∧ add_md_label_section me label issues =
        (if issues = [] then [] else ["## " ++ label.name ++ "\n\n"])
          ++ (((sortIssuesDesc issues).filter
                (fun x => is_me x me && !x.pull_request)).take ANCHOR_NUMBER).map
              add_issue_info
          ++ (if ANCHOR_NUMBER <
                ((sortIssuesDesc issues).filter
                  (fun x => is_me x me && !x.pull_request)).length then
                DETAILS_OPEN :: "\n"
                  :: (((sortIssuesDesc issues).filter
                        (fun x => is_me x me && !x.pull_request)).drop
                        ANCHOR_NUMBER).map add_issue_info
              else [])
          ++ (if ANCHOR_NUMBER <
                ((sortIssuesDesc issues).filter
                  (fun x => is_me x me && !x.pull_request)).length then
                [DETAILS_CLOSE, "\n"]
              else []) :=
  ⟨List.sorted_insertionSort issueDescRel issues,
   List.perm_insertionSort issueDescRel issues,
   add_md_label_section_eq me label issues⟩

/-- Claim C7: Sanitization maps the title `A/B: Test "X"` to the filename
segment `A-B.Test.X`, and the backup filename is
`BACKUP/7_A-B.Test.X.md`. -/
theorem c7_sanitization :
    safe_title "A/B: Test \"X\"" = "A-B.Test.X"
    ∧ backup_md_name BACKUP_DIR sanitizeIssue = "BACKUP/7_A-B.Test.X.md" := by
  decide

/-- Counterexample to claim C3: the labels `laNone` (name `a`, no description) and
`lbEmpty` (name `z`, empty-string description) are both "remaining" labels
under the claim, which then requires them sorted ascending by name
(`a` before `z`); the code sorts `z` before `a`, because the key puts
empty-string descriptions strictly before absent ones. -/
theorem c3_counterexample :
    sortLabels [laNone, lbEmpty] = [lbEmpty, laNone]
    ∧ pyStrLe lbEmpty.name laNone.name = false
    ∧ laNone.description = none
    ∧ lbEmpty.description = some "" := by decide

/-- Amended claim C3: The label ordering is a total preorder in which labels
with non-null, non-empty descriptions precede all other labels and are
sorted ascending by description text then name; among the remaining labels,
those with empty-string descriptions precede those with null descriptions,
and within each of those two groups labels are sorted ascending by name.
`sortLabels` sorts every list by this order. -/
theorem c3_amended_label_order :
    (∀ a b : Label, labelRel a b ∨ labelRel b a)
    ∧ (∀ a b c : Label, labelRel a b → labelRel b c → labelRel a c)
    ∧ (∀ ls : List Label, (sortLabels ls).Sorted labelRel ∧ (sortLabels ls).Perm ls)
    ∧ (∀ a b : Label, (∃ s, a.description = some s ∧ s ≠ "") →
        (∃ t, b.description = some t ∧ t ≠ "") →
        (labelRel a b ↔
          (a.description ≠ b.description
            ∧ pyStrLe (a.description.getD "") (b.description.getD "") = true)
          ∨ (a.description = b.description ∧ pyStrLe a.name b.name = true)))
    ∧ (∀ a b : Label, (∃ s, a.description = some s ∧ s ≠ "") →
        (b.description = none ∨ b.description = some "") →
        labelRel a b ∧ ¬ labelRel b a)
    ∧ (∀ a b : Label, a.description = some "" → b.description = none →
        labelRel a b ∧ ¬ labelRel b a)
    ∧ (∀ a b : Label, a.description = some "" → b.description = some "" →
        (labelRel a b ↔ pyStrLe a.name b.name = true))
    ∧ (∀ a b : Label, a.description = none → b.description = none →
        (labelRel a b ↔ pyStrLe a.name b.name = true)) := by
  refine ⟨fun a b => pyTupleLe_total (labelKey a) (labelKey b),
    fun _ _ _ h1 h2 => pyTupleLe_trans h1 h2,
    fun ls => ⟨List.sorted_insertionSort labelRel ls, List.perm_insertionSort labelRel ls⟩,
    ?_, ?_, ?_, ?_, ?_⟩
  · rintro a b ⟨s, hs, hsne⟩ ⟨t, ht, htne⟩
    by_cases hst : s = t
    · subst hst
      simp [labelRel, pyTupleLe, labelKey, hs, ht, hsne]
    · simp [labelRel, pyTupleLe, labelKey, hs, ht, hsne, htne, hst, Option.some_inj]
  · rintro a b ⟨s, hs, hsne⟩ (hb | hb)
    · simp [labelRel, pyTupleLe, labelKey, hs, hb, hsne]
    · simp [labelRel, pyTupleLe, labelKey, hs, hb, hsne]
  · intro a b ha hb
    simp [labelRel, pyTupleLe, labelKey, ha, hb]
  · intro a b ha hb
    simp [labelRel, pyTupleLe, labelKey, ha, hb]
  · intro a b ha hb
    simp [labelRel, pyTupleLe, labelKey, ha, hb]

/-- Witness for C3 (amended): empty-string description strictly precedes
null description. -/
theorem c3_amended_witness :
    labelRel lbEmpty laNone ∧ ¬ labelRel laNone lbEmpty := by
  have h := c3_amended_label_order
  exact h.2.2.2.2.2.1 lbEmpty laNone rfl rfl

/-- Claim C5: An issue number already present as the numeric filename first
segment of a backup file is excluded from the work list computed without an
explicit issue number. -/
theorem c5_already_backed_up_excluded (allIssues : List Issue)
    (files : List String) (getIssue : Nat → Except String Issue) (n : Nat)
    (hn : n ∈ generated_issues_numbers files) :
    ∀ i ∈ (get_to_generate_issues allIssues files getIssue none).1,
      i.number ≠ n := by
  intro i hi he
  simp only [get_to_generate_issues, List.mem_filter, Bool.not_eq_true',
    decide_eq_false_iff_not] at hi
  exact hi.2 (he ▸ hn)

/-- Witness for C5: number 12 is backed up; `myIssue` stays on the work list
and the theorem yields its number's difference from 12. -/
theorem c5_witness : myIssue.number ≠ 12 :=
  c5_already_backed_up_excluded [myIssue, issue12] ["12_ab.md"]
    (fun _ => Except.error "nf") 12 (by decide) myIssue (by decide)

/-- Claim C6: When `--issue_number` names an issue whose number is already a
backup filename's numeric first segment, the fetched issue is still appended
to the work list, and — being identity-owned and not a pull request — its
backup filename is written (again). -/
theorem c6_forced_reprocess (env : Env) (dir : String) (s : String) (n : Nat)
    (iss : Issue)
    (hs : pyIntParse s = some n)
    (hnz : s ≠ "")
    (hfetch : env.getIssue n = Except.ok iss)
    (hpresent : n ∈ generated_issues_numbers env.backupFiles)
    (hqual : is_me iss env.me = true ∧ iss.pull_request = false) :
    iss ∈ (get_to_generate_issues env.allIssues env.backupFiles env.getIssue
      (some s)).1
    ∧ backup_md_name dir iss ∈ (main_run env (some s) dir).written := by
  have hmem : iss ∈ (get_to_generate_issues env.allIssues env.backupFiles
      env.getIssue (some s)).1 := by
    simp only [get_to_generate_issues, if_neg hnz, hs, hfetch]
    exact List.mem_append_right _ (List.mem_singleton.mpr rfl)
  refine ⟨hmem, ?_⟩
  simp only [main_run]
  apply List.mem_map_of_mem
  rw [List.mem_filter]
  exact ⟨hmem, by simp [hqual.1, hqual.2]⟩

/-- Witness for C6: issue 12 is already backed up, `--issue_number=12` still
re-writes its backup file. -/
theorem c6_witness :
    issue12 ∈ (get_to_generate_issues envC6.allIssues envC6.backupFiles
      envC6.getIssue (some "12")).1
    ∧ backup_md_name "BACKUP" issue12 ∈ (main_run envC6 (some "12") "BACKUP").written :=
  c6_forced_reprocess envC6 "BACKUP" "12" 12 issue12 (by decide) (by decide)
    rfl (by decide) (by decide)

/-- Claim C8: When the all-issues fetch fails, the failure is caught inside
`add_md_issues`: only the section heading was written, the error is logged,
and the run still performs the backup phase (work list, backup writes and
summary count are unaffected). -/
theorem c8_allissues_failure_isolated (env : Env) (e : String)
    (inum : Option String) (dir : String)
    (h : env.allIssuesSorted = Except.error e) :
    (add_md_issues env.me env.allIssuesSorted).1 = ["## 所有文章\n\n"]
    ∧ ("Error adding issues: " ++ e) ∈ (main_run env inum dir).logs
    ∧ (main_run env inum dir).written =
        ((get_to_generate_issues env.allIssues env.backupFiles env.getIssue
          inum).1.filter (fun i => is_me i env.me && !i.pull_request)).map
          (backup_md_name dir)
    ∧ (main_run env inum dir).summaryCount =
        (get_to_generate_issues env.allIssues env.backupFiles env.getIssue
          inum).1.length := by
  refine ⟨by rw [h]; rfl, ?_, rfl, rfl⟩
  simp [main_run, h, add_md_issues]

/-- Witness for C8: the error is logged and the run completes. -/
theorem c8_witness :
    ("Error adding issues: " ++ "boom") ∈ (main_run envC8 none "BACKUP").logs :=
  (c8_allissues_failure_isolated envC8 "boom" none "BACKUP" rfl).2.1

/-- Claim C9: a backup filename whose first segment (before the first
underscore) is not composed entirely of digit characters contributes
nothing to the already-backed-up set and raises no error — it is filtered
out before the `int` conversion is attempted, in the total model and in the
failure-aware model of the comprehension alike.  The repertoire hypothesis
confines the statement to characters on which the embedded digit
classification agrees with CPython; `digit_guard_not_parse_safe` shows the
guard itself does not make the conversion total. -/
theorem c9_nondigit_ignored (f : String) (files : List String)
    (hrep : (firstSegment f).data.all charModelled = true)
    (h : pyIsDigit (firstSegment f) = false) :
    generated_issues_numbers (f :: files) = generated_issues_numbers files
    ∧ generated_issues_numbers_checked (f :: files)
        = generated_issues_numbers_checked files := by
  constructor
  · simp [generated_issues_numbers, List.filter_cons, h]
  · simp [generated_issues_numbers_checked, h]

/-- Witness for C9 at a concrete directory listing. -/
theorem c9_witness :
    generated_issues_numbers ["notes.md", "12_ab.md"]
        = generated_issues_numbers ["12_ab.md"]
    ∧ generated_issues_numbers_checked ["notes.md", "12_ab.md"]
        = generated_issues_numbers_checked ["12_ab.md"] :=
  c9_nondigit_ignored "notes.md" ["12_ab.md"] (by decide) (by decide)

/-- Claim C10: The summary line reports the length of the computed work list,
while the number of backup files written is the length of its
classifier-filtered sublist; concretely, a work list holding only a foreign
pull request is reported as `1` though zero files are written. -/
theorem c10_summary_counts_worklist (env : Env) (inum : Option String)
    (dir : String) :
    ((main_run env inum dir).summaryCount =
      (get_to_generate_issues env.allIssues env.backupFiles env.getIssue
        inum).1.length
    ∧ (main_run env inum dir).written.length =
      ((get_to_generate_issues env.allIssues env.backupFiles env.getIssue
        inum).1.filter (fun i => is_me i env.me && !i.pull_request)).length)
    ∧ (main_run envC10 none "BACKUP").summaryCount = 1
    ∧ (main_run envC10 none "BACKUP").written = [] := by
  refine ⟨⟨rfl, ?_⟩, by decide, by decide⟩
  simp [main_run]

end GitBlog
